import Mathlib

/-!
Shallow embedding of `src/Image/index.ts` (vue-datocms): the module-level
environment probes (`isSsr`, `isIntersectionObserverAvailable`), the
`useInView` visibility tracker (its `onMounted` attach, the callback given
to `IntersectionObserver`, and the `onBeforeUnmount` teardown), the two
pure display-strategy functions (`imageAddStrategy`, `imageShowStrategy`),
the `handleLoad` latch of `setup`, and the observer option computation of
`setup`.
-/

/-- The ambient execution context the module constants are computed from:
whether a `window` global exists, and (when it does) whether it exposes
`IntersectionObserver`. -/
structure Env where
  hasWindow : Bool
  windowHasIntersectionObserver : Bool
deriving DecidableEq

/-- Embeds `const isSsr = typeof window === "undefined"`. -/
def isSsr (env : Env) : Bool := !env.hasWindow

/-- Embeds `const isIntersectionObserverAvailable = isSsr ? false :
!!(window as any).IntersectionObserver`. -/
def isIntersectionObserverAvailable (env : Env) : Bool :=
  if isSsr env then false else env.windowHasIntersectionObserver

/-- The `State` record consumed by the two strategy functions. The field
`lazyLoad?: boolean` is optional in the source, so it is an `Option Bool`
here, `none` standing for `undefined`. -/
structure State where
  lazyLoad : Option Bool
  inView : Bool
  loaded : Bool
deriving DecidableEq

/-- JS truthiness of the optional boolean `lazyLoad`: `undefined` and
`false` are falsy, so `!lazyLoad` holds unless `lazyLoad` is `true`. -/
def jsTruthy : Option Bool → Bool
  | some b => b
  | none => false

/-- Embeds `imageAddStrategy` from `src/Image/index.ts` lines 120-134. -/
def imageAddStrategy (env : Env) (s : State) : Bool :=
  if !(jsTruthy s.lazyLoad) then true
  else if isSsr env then false
  else if isIntersectionObserverAvailable env then s.inView || s.loaded
  else true

/-- Embeds `imageShowStrategy` from `src/Image/index.ts` lines 136-150
(the `inView` field is not consulted by this function). -/
def imageShowStrategy (env : Env) (s : State) : Bool :=
  if !(jsTruthy s.lazyLoad) then true
  else if isSsr env then false
  else if isIntersectionObserverAvailable env then s.loaded
  else true

/-- One entry of an intersection event, as read by the callback
(`entries[0].isIntersecting`). -/
structure IntersectionEntry where
  isIntersecting : Bool
deriving DecidableEq

/-- The slice of an `IntersectionObserver` instance the tracker interacts
with: `connected` is false once `disconnect()` has been called, and
`observing` records whether `observe(elRef.value)` was called. -/
structure Observer where
  connected : Bool
  observing : Bool
deriving DecidableEq

/-- The refs held by `useInView`: `observer`, `elRef` (abstracted to
whether its value is non-null), and `inView`. -/
structure TrackerState where
  observer : Option Observer
  elRef : Bool
  inView : Bool
deriving DecidableEq

/-- The initial refs of `useInView`: `observer = ref(null)`,
`elRef = ref(null)`, `inView = ref(false)`. -/
def initTracker : TrackerState :=
  { observer := none, elRef := false, inView := false }

/-- The host framework binds the template ref (`ref: "elRef"` in the render
output) before the mounted hook runs. -/
def setElRef (t : TrackerState) : TrackerState := { t with elRef := true }

/-- The `onMounted` hook of `useInView`: when the observer facility is
available, a new connected `IntersectionObserver` is stored in `observer`,
and `observe(elRef.value)` is called iff `elRef.value` is non-null. -/
def trackerMounted (env : Env) (t : TrackerState) : TrackerState :=
  if isIntersectionObserverAvailable env then
    { t with observer := some { connected := true, observing := t.elRef } }
  else t

/-- The callback body passed to `new IntersectionObserver`: it reads
`entries[0]`; if that entry `isIntersecting` and `observer.value` is
non-null, it sets `inView.value = true` and calls
`observer.value.disconnect()`. -/
def intersectionCallback (entries : List IntersectionEntry) (t : TrackerState) : TrackerState :=
  match entries.head? with
  | some image =>
      if image.isIntersecting && t.observer.isSome then
        { t with
            inView := true,
            observer := t.observer.map (fun o => { o with connected := false }) }
      else t
  | none => t

/-- Delivery of an intersection event by the host observation facility.
Per the browser contract (which the source relies on and does not
re-check), the callback fires only for an observer that is still connected
(`disconnect()` not yet called) and is actually observing the element. -/
def deliverIntersection (e : IntersectionEntry) (t : TrackerState) : TrackerState :=
  match t.observer with
  | some o => if o.connected && o.observing then intersectionCallback [e] t else t
  | none => t

/-- The `onBeforeUnmount` hook of `useInView`: when the facility is
available and `observer.value` is non-null, `disconnect()` is called. -/
def trackerBeforeUnmount (env : Env) (t : TrackerState) : TrackerState :=
  if isIntersectionObserverAvailable env && t.observer.isSome then
    { t with observer := t.observer.map (fun o => { o with connected := false }) }
  else t

/-- The reactive state of one `Image` component instance: the tracker refs
of `useInView` plus the `loaded` ref created in `setup`. -/
structure ComponentState where
  tracker : TrackerState
  loaded : Bool
deriving DecidableEq

/-- Fresh component state: `loaded = ref(false)` and the fresh `useInView`
refs. -/
def initComponent : ComponentState :=
  { tracker := initTracker, loaded := false }

/-- Embeds `handleLoad` from `setup` (lines 200-202): `loaded.value = true`. -/
def handleLoad (s : ComponentState) : ComponentState := { s with loaded := true }

/-- The operations that can touch the component state during its life. -/
inductive Op where
  | setRef
  | mounted (env : Env)
  | deliver (e : IntersectionEntry)
  | load
  | beforeUnmount (env : Env)
  | render
deriving DecidableEq

/-- Small-step semantics of the component: each lifecycle event updates the
state through the corresponding source function; `render` only reads the
state (it computes the virtual tree) and never writes it. -/
def step : Op → ComponentState → ComponentState
  | Op.setRef, s => { s with tracker := setElRef s.tracker }
  | Op.mounted env, s => { s with tracker := trackerMounted env s.tracker }
  | Op.deliver e, s => { s with tracker := deliverIntersection e s.tracker }
  | Op.load, s => handleLoad s
  | Op.beforeUnmount env, s => { s with tracker := trackerBeforeUnmount env s.tracker }
  | Op.render, s => s

/-- JS `a || b` where the left operand is a possibly-undefined number: a
number is falsy exactly when it equals 0, and `undefined` is falsy. -/
def numOr : Option ℚ → ℚ → ℚ
  | some a, b => if a = 0 then b else a
  | none, b => b

/-- The props of `Image` that feed `useInView` in `setup`:
`intersectionTreshold` (deprecated, default 0), `intersectionThreshold`
(no default, hence optional), `intersectionMargin` (default
`"0px 0px 0px 0px"`). -/
structure ImageProps where
  intersectionTreshold : ℚ
  intersectionThreshold : Option ℚ
  intersectionMargin : String
deriving DecidableEq

/-- The `threshold` option computed in `setup` (line 205):
`props.intersectionThreshold || props.intersectionTreshold || 0`. -/
def setupThreshold (p : ImageProps) : ℚ :=
  numOr p.intersectionThreshold (numOr (some p.intersectionTreshold) 0)

/-- The `rootMargin` option computed in `setup` (line 206):
`props.intersectionMargin || "0px 0px 0px 0px"` (a string is falsy iff it
is empty). -/
def setupRootMargin (p : ImageProps) : String :=
  if p.intersectionMargin = "" then "0px 0px 0px 0px" else p.intersectionMargin

/-- Helper: the observer callback never resets `inView`; it leaves it
unchanged or sets it to true. -/
theorem intersectionCallback_inView_mono (es : List IntersectionEntry) (t : TrackerState) :
    (intersectionCallback es t).inView = t.inView
    ∨ (intersectionCallback es t).inView = true := by
  rcases hh : es.head? with _ | image
  · simp [intersectionCallback, hh]
  · simp only [intersectionCallback, hh]
    split
    · right; rfl
    · left; rfl

/-- Helper: event delivery never resets `inView`. -/
theorem deliverIntersection_inView_mono (e : IntersectionEntry) (t : TrackerState) :
    (deliverIntersection e t).inView = t.inView
    ∨ (deliverIntersection e t).inView = true := by
  rcases ho : t.observer with _ | o
  · simp [deliverIntersection, ho]
  · simp only [deliverIntersection, ho]
    split
    · exact intersectionCallback_inView_mono [e] t
    · left; rfl

/-- Helper: the mounted hook does not touch `inView`. -/
theorem trackerMounted_inView (env : Env) (t : TrackerState) :
    (trackerMounted env t).inView = t.inView := by
  unfold trackerMounted
  split <;> rfl

/-- Helper: the unmount hook does not touch `inView`. -/
theorem trackerBeforeUnmount_inView (env : Env) (t : TrackerState) :
    (trackerBeforeUnmount env t).inView = t.inView := by
  unfold trackerBeforeUnmount
  split <;> rfl

/-- C1 (counterexample): in a browser environment without
`IntersectionObserver`, with `lazyLoad = true`, `inView = false` and
`loaded = false`, `imageShowStrategy` does not return the `loaded` value
(false): the source falls through the observer branch and returns true. -/
theorem c1_show_equals_loaded_counterexample :
    imageShowStrategy { hasWindow := true, windowHasIntersectionObserver := false }
        { lazyLoad := some true, inView := false, loaded := false }
      ≠ State.loaded { lazyLoad := some true, inView := false, loaded := false } := by
  decide

/-- C1 (amended): in a non-server environment where no visibility-observer
facility is available, with lazy loading enabled, `imageShowStrategy`
returns true unconditionally (fail-open, exactly like `imageAddStrategy`),
for both values of `inView` and both values of `loaded`. -/
theorem c1_show_fail_open (env : Env) (iv ld : Bool)
    (hs : isSsr env = false) (hio : isIntersectionObserverAvailable env = false) :
    imageShowStrategy env { lazyLoad := some true, inView := iv, loaded := ld } = true := by
  simp [imageShowStrategy, jsTruthy, hs, hio]

/-- C1 (witness): the amended statement evaluated in the concrete
browser-without-observer environment. -/
theorem c1_show_fail_open_witness :
    imageShowStrategy { hasWindow := true, windowHasIntersectionObserver := false }
      { lazyLoad := some true, inView := false, loaded := false } = true :=
  c1_show_fail_open { hasWindow := true, windowHasIntersectionObserver := false }
    false false (by decide) (by decide)

/-- C2: detaching (the unmount teardown) before any intersection event and
then delivering an intersection event with `isIntersecting = true` leaves
`inView` false: no notification reaches a detached tracker, in every
environment. -/
theorem c2_detach_blocks_notification (env : Env) (e : IntersectionEntry)
    (h : e.isIntersecting = true) :
    (deliverIntersection e
        (trackerBeforeUnmount env (trackerMounted env (setElRef initTracker)))).inView
      = false := by
  obtain ⟨hw, hio⟩ := env
  obtain ⟨i⟩ := e
  cases hw <;> cases hio <;> cases i <;> decide

/-- C2 (witness): the detach-then-deliver scenario evaluated in the
concrete browser-with-observer environment. -/
theorem c2_detach_blocks_notification_witness :
    (deliverIntersection { isIntersecting := true }
        (trackerBeforeUnmount { hasWindow := true, windowHasIntersectionObserver := true }
          (trackerMounted { hasWindow := true, windowHasIntersectionObserver := true }
            (setElRef initTracker)))).inView
      = false :=
  c2_detach_blocks_notification
    { hasWindow := true, windowHasIntersectionObserver := true }
    { isIntersecting := true } rfl

/-- C3: in a non-server environment where no visibility-observer facility
is available, with lazy loading enabled, `imageAddStrategy` returns true
unconditionally, for all values of `inView` and `loaded` (fail-open). -/
theorem c3_mount_fail_open (env : Env) (iv ld : Bool)
    (hs : isSsr env = false) (hio : isIntersectionObserverAvailable env = false) :
    imageAddStrategy env { lazyLoad := some true, inView := iv, loaded := ld } = true := by
  simp [imageAddStrategy, jsTruthy, hs, hio]

/-- C3 (witness): the fail-open mount decision evaluated in the concrete
browser-without-observer environment. -/
theorem c3_mount_fail_open_witness :
    imageAddStrategy { hasWindow := true, windowHasIntersectionObserver := false }
      { lazyLoad := some true, inView := false, loaded := false } = true :=
  c3_mount_fail_open { hasWindow := true, windowHasIntersectionObserver := false }
    false false (by decide) (by decide)

/-- C4: when lazy loading is disabled, both `imageAddStrategy` and
`imageShowStrategy` return true, for every environment and all values of
`inView` and `loaded`. -/
theorem c4_lazy_disabled_always_true :
    ∀ (env : Env) (iv ld : Bool),
      imageAddStrategy env { lazyLoad := some false, inView := iv, loaded := ld } = true
      ∧ imageShowStrategy env { lazyLoad := some false, inView := iv, loaded := ld } = true := by
  rintro ⟨hw, hio⟩ iv ld
  cases hw <;> cases hio <;> cases iv <;> cases ld <;> exact ⟨rfl, rfl⟩

/-- C5: in a server-rendered environment, with lazy loading enabled, both
`imageAddStrategy` and `imageShowStrategy` return false, for all values of
`inView` and `loaded`. -/
theorem c5_ssr_lazy_never (env : Env) (iv ld : Bool) (hs : isSsr env = true) :
    imageAddStrategy env { lazyLoad := some true, inView := iv, loaded := ld } = false
    ∧ imageShowStrategy env { lazyLoad := some true, inView := iv, loaded := ld } = false := by
  constructor
  · simp [imageAddStrategy, jsTruthy, hs]
  · simp [imageShowStrategy, jsTruthy, hs]

/-- C5 (witness): both strategies evaluated in the concrete server
environment. -/
theorem c5_ssr_lazy_never_witness :
    imageAddStrategy { hasWindow := false, windowHasIntersectionObserver := false }
      { lazyLoad := some true, inView := true, loaded := true } = false
    ∧ imageShowStrategy { hasWindow := false, windowHasIntersectionObserver := false }
      { lazyLoad := some true, inView := true, loaded := true } = false :=
  c5_ssr_lazy_never { hasWindow := false, windowHasIntersectionObserver := false }
    true true (by decide)

/-- C6: in a non-server environment with the visibility-observer facility
available, with lazy loading enabled, `imageAddStrategy` returns
`inView || loaded` for all values of the two latches. -/
theorem c6_mount_inView_or_loaded (env : Env) (iv ld : Bool)
    (hs : isSsr env = false) (hio : isIntersectionObserverAvailable env = true) :
    imageAddStrategy env { lazyLoad := some true, inView := iv, loaded := ld }
      = (iv || ld) := by
  simp [imageAddStrategy, jsTruthy, hs, hio]

/-- C6 (witness): the mount decision evaluated in the concrete
browser-with-observer environment at `inView = true`, `loaded = false`. -/
theorem c6_mount_inView_or_loaded_witness :
    imageAddStrategy { hasWindow := true, windowHasIntersectionObserver := true }
      { lazyLoad := some true, inView := true, loaded := false } = (true || false) :=
  c6_mount_inView_or_loaded { hasWindow := true, windowHasIntersectionObserver := true }
    true false (by decide) (by decide)

/-- C7: after attach in a browser with the observer facility, delivering an
intersection event whose entry has `isIntersecting = true` sets `inView`
true and disconnects the observer within the same callback; delivering a
second event afterwards changes nothing (at most one notification per
tracker instance). -/
theorem c7_at_most_one_notification (e e2 : IntersectionEntry)
    (h : e.isIntersecting = true) :
    ((deliverIntersection e
        (trackerMounted ⟨true, true⟩ (setElRef initTracker))).inView = true)
    ∧ ((deliverIntersection e
        (trackerMounted ⟨true, true⟩ (setElRef initTracker))).observer
        = some { connected := false, observing := true })
    ∧ (deliverIntersection e2
        (deliverIntersection e (trackerMounted ⟨true, true⟩ (setElRef initTracker)))
        = deliverIntersection e (trackerMounted ⟨true, true⟩ (setElRef initTracker))) := by
  obtain ⟨i⟩ := e
  obtain ⟨i2⟩ := e2
  cases i <;> cases i2 <;> revert h <;> decide

/-- C7 (witness): the attach-deliver-deliver scenario evaluated at two
concrete intersecting events. -/
theorem c7_at_most_one_notification_witness :
    ((deliverIntersection { isIntersecting := true }
        (trackerMounted ⟨true, true⟩ (setElRef initTracker))).inView = true)
    ∧ ((deliverIntersection { isIntersecting := true }
        (trackerMounted ⟨true, true⟩ (setElRef initTracker))).observer
        = some { connected := false, observing := true })
    ∧ (deliverIntersection { isIntersecting := true }
        (deliverIntersection { isIntersecting := true }
          (trackerMounted ⟨true, true⟩ (setElRef initTracker)))
        = deliverIntersection { isIntersecting := true }
            (trackerMounted ⟨true, true⟩ (setElRef initTracker))) :=
  c7_at_most_one_notification { isIntersecting := true } { isIntersecting := true } rfl

/-- C8: `inView` and `loaded` are monotonic one-way latches: both start
false in the fresh component state, and every operation of the system
(template-ref binding, mounted hook, intersection delivery, load handler,
unmount hook, render) either leaves each value unchanged or sets it to
true; no operation ever moves either from true back to false. -/
theorem c8_monotonic_latches :
    initComponent.tracker.inView = false ∧ initComponent.loaded = false
    ∧ ∀ (op : Op) (s : ComponentState),
        ((step op s).tracker.inView = s.tracker.inView
          ∨ (step op s).tracker.inView = true)
        ∧ ((step op s).loaded = s.loaded ∨ (step op s).loaded = true) := by
  refine ⟨rfl, rfl, ?_⟩
  intro op s
  cases op with
  | setRef => exact ⟨Or.inl rfl, Or.inl rfl⟩
  | mounted env =>
      exact ⟨Or.inl (trackerMounted_inView env s.tracker), Or.inl rfl⟩
  | deliver e =>
      exact ⟨deliverIntersection_inView_mono e s.tracker, Or.inl rfl⟩
  | load => exact ⟨Or.inl rfl, Or.inr rfl⟩
  | beforeUnmount env =>
      exact ⟨Or.inl (trackerBeforeUnmount_inView env s.tracker), Or.inl rfl⟩
  | render => exact ⟨Or.inl rfl, Or.inl rfl⟩

/-- C9: the capability flags satisfy `isIntersectionObserverAvailable`
implies not `isSsr`: in any server-side environment the observer
capability flag is false. -/
theorem c9_observer_implies_browser (env : Env)
    (h : isIntersectionObserverAvailable env = true) :
    isSsr env = false := by
  obtain ⟨hw, hio⟩ := env
  revert h
  cases hw <;> cases hio <;> decide

/-- C9 (witness): the implication applied at the concrete environment that
has a window and exposes `IntersectionObserver`. -/
theorem c9_observer_implies_browser_witness :
    isIntersectionObserverAvailable { hasWindow := true, windowHasIntersectionObserver := true } = true
    ∧ isSsr { hasWindow := true, windowHasIntersectionObserver := true } = false :=
  ⟨by decide,
    c9_observer_implies_browser
      { hasWindow := true, windowHasIntersectionObserver := true } (by decide)⟩

/-- C10: the threshold passed to the tracker is
`intersectionThreshold || intersectionTreshold || 0`: when the
`intersectionThreshold` prop is unset or equals 0, the deprecated
`intersectionTreshold` value is used instead, and a nonzero
`intersectionThreshold` wins; so an explicit `intersectionThreshold` of 0
cannot override a nonzero deprecated `intersectionTreshold`. -/
theorem c10_threshold_fallback (tres t : ℚ) (m : String) :
    setupThreshold
        { intersectionTreshold := tres, intersectionThreshold := none,
          intersectionMargin := m } = tres
    ∧ setupThreshold
        { intersectionTreshold := tres, intersectionThreshold := some 0,
          intersectionMargin := m } = tres
    ∧ (t ≠ 0 →
        setupThreshold
          { intersectionTreshold := tres, intersectionThreshold := some t,
            intersectionMargin := m } = t) := by
  refine ⟨?_, ?_, ?_⟩
  · simp only [setupThreshold, numOr]
    rcases eq_or_ne tres 0 with h | h
    · simp [h]
    · simp [h]
  · simp only [setupThreshold, numOr, if_pos rfl]
    rcases eq_or_ne tres 0 with h | h
    · simp [h]
    · simp [h]
  · intro ht
    simp [setupThreshold, numOr, ht]

/-- C10 (witness): an explicit `intersectionThreshold` of 0 yields the
deprecated value 1/2, while a nonzero explicit 1/4 wins. -/
theorem c10_threshold_fallback_witness :
    setupThreshold
        { intersectionTreshold := (1 : ℚ)/2, intersectionThreshold := some 0,
          intersectionMargin := "0px 0px 0px 0px" } = (1 : ℚ)/2
    ∧ setupThreshold
        { intersectionTreshold := (1 : ℚ)/2, intersectionThreshold := some ((1 : ℚ)/4),
          intersectionMargin := "0px 0px 0px 0px" } = (1 : ℚ)/4 :=
  ⟨(c10_threshold_fallback ((1 : ℚ)/2) ((1 : ℚ)/4) "0px 0px 0px 0px").2.1,
   (c10_threshold_fallback ((1 : ℚ)/2) ((1 : ℚ)/4) "0px 0px 0px 0px").2.2 (by norm_num)⟩
